import Mathlib

/-!
Shallow embedding of the Hotstar repository's production server (`server.js`)
and its TMDB API client (the axios instance module), together with proofs of
the specification's claims about them.

The server is a thin Express pipeline: helmet security headers, compression,
a `/health` route, a `/metrics` route, a static-asset middleware over the
`build` directory, a `GET *` single-page-application fallback that serves
`build/index.html`, and a catch-all error middleware answering 500 with a
generic JSON error body.  The API client is an axios instance with a base
URL, a 10000 ms timeout, two default JSON headers, a pass-through request
interceptor, and a response interceptor that classifies failures into three
categories, logs them, and re-rejects the original error unchanged.
-/

namespace Hotstar

/-- A minimal JSON value model: the server and client only produce strings,
numbers and flat objects. -/
inductive Json where
  | str : String → Json
  | num : Int → Json
  | obj : List (String × Json) → Json

/-- Field lookup in a JSON object (`none` on non-objects or missing keys). -/
def jsonLookup (j : Json) (k : String) : Option Json :=
  match j with
  | Json.obj fields => List.lookup k fields
  | _ => none

/-- JavaScript's `x || y` idiom on an optional environment variable: the
default is used when the variable is unset or set to the empty string
(both are falsy in JavaScript). -/
def orDefault (x : Option String) (d : String) : String :=
  match x with
  | none => d
  | some s => if s = "" then d else s

/-- The process environment variables read by `server.js`. -/
structure Env where
  nodeEnv : Option String
  appVersion : Option String
  port : Option String

/-- `const NODE_ENV = process.env.NODE_ENV || 'production'` in `server.js`. -/
def nodeEnvValue (env : Env) : String :=
  orDefault env.nodeEnv "production"

/-- A calendar timestamp, the argument of `Date.prototype.toISOString`. -/
structure DateTime where
  year : Nat
  month : Nat
  day : Nat
  hour : Nat
  minute : Nat
  second : Nat
  ms : Nat

/-- The decimal digit character for `n % 10`. -/
def digitChar (n : Nat) : Char :=
  Char.ofNat (48 + n % 10)

/-- The character list of `Date.prototype.toISOString`:
`YYYY-MM-DDTHH:mm:ss.sssZ`, each field zero-padded to fixed width. -/
def isoChars (d : DateTime) : List Char :=
  [digitChar (d.year / 1000), digitChar (d.year / 100), digitChar (d.year / 10),
   digitChar d.year, '-',
   digitChar (d.month / 10), digitChar d.month, '-',
   digitChar (d.day / 10), digitChar d.day, 'T',
   digitChar (d.hour / 10), digitChar d.hour, ':',
   digitChar (d.minute / 10), digitChar d.minute, ':',
   digitChar (d.second / 10), digitChar d.second, '.',
   digitChar (d.ms / 100), digitChar (d.ms / 10), digitChar d.ms, 'Z']

/-- `new Date().toISOString()`. -/
def toISOString (d : DateTime) : String :=
  String.mk (isoChars d)

/-- Checks that a character list has the exact ISO-8601 shape
`YYYY-MM-DDTHH:mm:ss.sssZ` produced by `toISOString`: 24 characters,
digits in the field positions and the fixed separators in between. -/
def iso8601Shape (cs : List Char) : Bool :=
  match cs with
  | [y1, y2, y3, y4, g1, mo1, mo2, g2, d1, d2, t, h1, h2, c1, mi1, mi2, c2,
     se1, se2, p, f1, f2, f3, z] =>
      y1.isDigit && y2.isDigit && y3.isDigit && y4.isDigit && (g1 == '-') &&
      mo1.isDigit && mo2.isDigit && (g2 == '-') && d1.isDigit && d2.isDigit &&
      (t == 'T') && h1.isDigit && h2.isDigit && (c1 == ':') &&
      mi1.isDigit && mi2.isDigit && (c2 == ':') && se1.isDigit && se2.isDigit &&
      (p == '.') && f1.isDigit && f2.isDigit && f3.isDigit && (z == 'Z')
  | _ => false

/-- The record returned by `process.memoryUsage()`: byte counts, hence
naturally non-negative. -/
structure MemoryUsage where
  rss : Nat
  heapTotal : Nat
  heapUsed : Nat
  external : Nat
  arrayBuffers : Nat

/-- The record returned by `process.cpuUsage()`: microsecond counts. -/
structure CpuUsage where
  user : Nat
  system : Nat

/-- The instantaneous process state read by the handlers: the current time
(`new Date()`), `process.uptime()` (seconds since start, non-negative),
`process.memoryUsage()` and `process.cpuUsage()`. -/
structure ProcessState where
  now : DateTime
  uptime : Nat
  memory : MemoryUsage
  cpu : CpuUsage

/-- A content-security-policy source expression, as written in the helmet
configuration of `server.js`. -/
inductive CspSource where
  | keywordSelf : CspSource
  | keywordInline : CspSource
  | schemeData : CspSource
  | schemeHttps : CspSource
  | schemeHttp : CspSource
  | host : String → CspSource
deriving DecidableEq

/-- The content-security-policy directives configured in `server.js`. -/
structure CspDirectives where
  defaultSrc : List CspSource
  styleSrc : List CspSource
  fontSrc : List CspSource
  scriptSrc : List CspSource
  imgSrc : List CspSource
  connectSrc : List CspSource
deriving DecidableEq

/-- The fixed helmet `contentSecurityPolicy.directives` value from
`server.js` (`keywordSelf` is the quoted self keyword, `keywordInline` the
quoted unquoted-styles keyword, `schemeData`/`schemeHttps`/`schemeHttp` the
bare scheme sources). -/
def helmetCsp : CspDirectives :=
  { defaultSrc := [CspSource.keywordSelf]
    styleSrc := [CspSource.keywordSelf, CspSource.keywordInline,
                 CspSource.host "https://fonts.googleapis.com",
                 CspSource.host "https://cdnjs.cloudflare.com"]
    fontSrc := [CspSource.keywordSelf,
                CspSource.host "https://fonts.gstatic.com",
                CspSource.host "https://cdnjs.cloudflare.com"]
    scriptSrc := [CspSource.keywordSelf]
    imgSrc := [CspSource.keywordSelf, CspSource.schemeData,
               CspSource.schemeHttps, CspSource.schemeHttp]
    connectSrc := [CspSource.keywordSelf,
                   CspSource.host "https://api.themoviedb.org"] }

/-- The allow-list named by the specification: the self-origin, the named
font CDN hosts, and the third-party catalog API origin. -/
def cspAllowList : List CspSource :=
  [CspSource.keywordSelf,
   CspSource.host "https://fonts.googleapis.com",
   CspSource.host "https://fonts.gstatic.com",
   CspSource.host "https://cdnjs.cloudflare.com",
   CspSource.host "https://api.themoviedb.org"]

/-- HTTP request methods. -/
inductive Method where
  | GET : Method
  | HEAD : Method
  | POST : Method
  | PUT : Method
  | DELETE : Method
  | PATCH : Method
  | OPTIONS : Method
deriving DecidableEq

/-- The method name as it appears in Express's default not-found body. -/
def methodString : Method → String
  | Method.GET => "GET"
  | Method.HEAD => "HEAD"
  | Method.POST => "POST"
  | Method.PUT => "PUT"
  | Method.DELETE => "DELETE"
  | Method.PATCH => "PATCH"
  | Method.OPTIONS => "OPTIONS"

/-- Express routes `HEAD` requests through `GET` handlers, and
`express.static` serves only `GET` and `HEAD`; every other method falls
through those layers. -/
def isGetLike (m : Method) : Bool :=
  m == Method.GET || m == Method.HEAD

/-- An inbound HTTP request as seen by the routing pipeline.
`assetExists` abstracts whether the static `build` directory holds a file
at the requested path; `raisesError` abstracts whether handling this
request raises an unhandled failure (the oracle behind the error
middleware). -/
structure Request where
  method : Method
  path : String
  assetExists : Bool
  raisesError : Bool

/-- A response body: JSON, a served file, or Express's plain-text default. -/
inductive Body where
  | json : Json → Body
  | file : String → Body
  | text : String → Body

/-- A response before the helmet middleware annotates it with the security
headers. -/
structure BareResponse where
  status : Nat
  body : Body

/-- A full response: status, body, and the content-security-policy that the
helmet middleware attaches to every response. -/
structure Response where
  status : Nat
  body : Body
  csp : CspDirectives

/-- The entry document served by the single-page-application fallback:
`path.join(__dirname, 'build', 'index.html')`. -/
def entryDocument : String := "build/index.html"

/-- The JSON body computed afresh by the `/health` handler. -/
def healthJson (env : Env) (s : ProcessState) : Json :=
  Json.obj
    [("status", Json.str "healthy"),
     ("timestamp", Json.str (toISOString s.now)),
     ("uptime", Json.num (s.uptime : Int)),
     ("environment", Json.str (nodeEnvValue env)),
     ("version", Json.str (orDefault env.appVersion "1.0.0"))]

/-- The `/health` route handler: `res.status(200).json({...})`. -/
def healthBare (env : Env) (s : ProcessState) : BareResponse :=
  { status := 200, body := Body.json (healthJson env s) }

/-- The JSON rendering of `process.memoryUsage()`. -/
def memoryJson (m : MemoryUsage) : Json :=
  Json.obj
    [("rss", Json.num (m.rss : Int)),
     ("heapTotal", Json.num (m.heapTotal : Int)),
     ("heapUsed", Json.num (m.heapUsed : Int)),
     ("external", Json.num (m.external : Int)),
     ("arrayBuffers", Json.num (m.arrayBuffers : Int))]

/-- The JSON rendering of `process.cpuUsage()`. -/
def cpuJson (c : CpuUsage) : Json :=
  Json.obj
    [("user", Json.num (c.user : Int)),
     ("system", Json.num (c.system : Int))]

/-- The JSON body computed afresh by the `/metrics` handler. -/
def metricsJson (s : ProcessState) : Json :=
  Json.obj
    [("memory", memoryJson s.memory),
     ("uptime", Json.num (s.uptime : Int)),
     ("cpu", cpuJson s.cpu)]

/-- The `/metrics` route handler: `res.status(200).json({...})`. -/
def metricsBare (s : ProcessState) : BareResponse :=
  { status := 200, body := Body.json (metricsJson s) }

/-- The static middleware's answer when an asset matches: the file under
the `build` directory. -/
def staticBare (req : Request) : BareResponse :=
  { status := 200, body := Body.file ("build" ++ req.path) }

/-- The `app.get('*')` fallback: `res.sendFile(.../build/index.html)`. -/
def spaFallbackBare : BareResponse :=
  { status := 200, body := Body.file entryDocument }

/-- Express's default final handler for requests no layer matched. -/
def notFoundBare (req : Request) : BareResponse :=
  { status := 404,
    body := Body.text ("Cannot " ++ methodString req.method ++ " " ++ req.path) }

/-- The generic JSON error body produced by the error middleware. -/
def errorJson : Json :=
  Json.obj [("error", Json.str "Internal Server Error")]

/-- The error middleware's answer:
`res.status(500).json({ error: 'Internal Server Error' })`. -/
def errorBare : BareResponse :=
  { status := 500, body := Body.json errorJson }

/-- The routing pipeline of `server.js` in registration order: the
`/health` route, the `/metrics` route, the static middleware, the
`GET *` single-page fallback, then Express's default 404. -/
def route (env : Env) (s : ProcessState) (req : Request) : BareResponse :=
  if isGetLike req.method ∧ req.path = "/health" then healthBare env s
  else if isGetLike req.method ∧ req.path = "/metrics" then metricsBare s
  else if isGetLike req.method ∧ req.assetExists then staticBare req
  else if isGetLike req.method then spaFallbackBare
  else notFoundBare req

/-- The helmet middleware, applied to every response before it leaves the
server: attaches the fixed content-security-policy. -/
def applyHelmet (r : BareResponse) : Response :=
  { status := r.status, body := r.body, csp := helmetCsp }

/-- The full per-request behavior of the server: if handling raises an
unhandled failure the error middleware answers, otherwise the routing
pipeline does; helmet headers are attached either way. -/
def handle (env : Env) (s : ProcessState) (req : Request) : Response :=
  applyHelmet (if req.raisesError then errorBare else route env s req)

/-- One server step: the handlers only read the process state, so the
state they leave behind is the state they were given. -/
def serverStep (env : Env) (s : ProcessState) (req : Request) :
    Response × ProcessState :=
  (handle env s req, s)

/-- The server handling a sequence of requests: each request is answered
independently; no per-request failure stops the ones after it. -/
def serverRun (env : Env) (s : ProcessState) (reqs : List Request) :
    List Response :=
  reqs.map (handle env s)

/-- The axios instance configuration created by `axios.create` in the API
client module. -/
structure AxiosConfig where
  baseURL : String
  timeout : Nat
  headers : List (String × String)

/-- The `tmdbAxiosInstance` of the API client module, as a function of the
`REACT_APP_TMDB_BASE_URL` environment variable: base URL defaulting to the
public endpoint, a 10000 ms (10 second) timeout, and the two default JSON
headers. -/
def tmdbAxiosInstance (envBaseURL : Option String) : AxiosConfig :=
  { baseURL := orDefault envBaseURL "https://api.themoviedb.org/3"
    timeout := 10000
    headers := [("Accept", "application/json"),
                ("Content-Type", "application/json")] }

/-- An outbound HTTP request built from the instance configuration. -/
structure OutboundRequest where
  url : String
  payload : Option Json
  headers : List (String × String)

/-- The fulfilled arm of the request interceptor: `(config) => config`,
a pass-through performing no transformation. -/
def requestInterceptorFulfilled (c : OutboundRequest) : OutboundRequest := c

/-- Building the outbound request for a call through the instance: the
instance defaults give the headers and base URL, then the pass-through
request interceptor runs. -/
def dispatchRequest (inst : AxiosConfig) (path : String)
    (payload : Option Json) : OutboundRequest :=
  requestInterceptorFulfilled
    { url := inst.baseURL ++ path, payload := payload, headers := inst.headers }

/-- The response carried by a failed outcome when the remote service
answered with a non-success status: its status code and body. -/
structure AxiosResponseData where
  status : Nat
  data : Json

/-- A rejected axios outcome: `error.response` is present when the remote
service answered with a non-success status, `error.request` when the
request was sent, and `error.message` describes construction failures. -/
structure AxiosError where
  response : Option AxiosResponseData
  request : Option OutboundRequest
  message : String

/-- The three failure categories logged by the response interceptor. -/
inductive FailureCategory where
  | badStatus : Nat → Json → FailureCategory
  | noResponse : OutboundRequest → FailureCategory
  | constructionError : String → FailureCategory

/-- The classification branch of the response interceptor's rejected arm:
`if (error.response) ... else if (error.request) ... else ...`, recording
what each branch logs. -/
def classify (e : AxiosError) : FailureCategory :=
  match e.response with
  | some r => FailureCategory.badStatus r.status r.data
  | none =>
    match e.request with
    | some q => FailureCategory.noResponse q
    | none => FailureCategory.constructionError e.message

/-- What the rejected arm of the response interceptor produces: a log
entry in one of the three categories, and `Promise.reject(error)` on the
original error. -/
structure LoggedRejection where
  logged : FailureCategory
  rejected : AxiosError

/-- The rejected arm of the response interceptor: classify and log the
failure, then re-reject the original error unchanged. -/
def responseInterceptorRejected (e : AxiosError) : LoggedRejection :=
  { logged := classify e, rejected := e }

/-- Modelled from the spec: the axios runtime is not part of this
repository; when no response arrives within the timeout boundary it
rejects with an error carrying the sent request object and no response
object. -/
def timeoutError (q : OutboundRequest) (m : String) : AxiosError :=
  { response := none, request := some q, message := m }

/-- A sample environment with neither `NODE_ENV` nor `APP_VERSION` set. -/
def sampleEnv : Env :=
  { nodeEnv := none, appVersion := none, port := none }

/-- A sample instantaneous process state. -/
def sampleState : ProcessState :=
  { now := { year := 2024, month := 1, day := 1, hour := 0, minute := 0,
             second := 0, ms := 0 }
    uptime := 12345
    memory := { rss := 50000000, heapTotal := 30000000, heapUsed := 20000000,
                external := 1000000, arrayBuffers := 100000 }
    cpu := { user := 500000, system := 200000 } }

/-- A GET request for an arbitrary unmatched path with no asset match. -/
def sampleSpaReq : Request :=
  { method := Method.GET, path := "/this/does/not/exist",
    assetExists := false, raisesError := false }

/-- A GET request for `/health`. -/
def sampleHealthReq : Request :=
  { method := Method.GET, path := "/health",
    assetExists := false, raisesError := false }

/-- A GET request for `/metrics`. -/
def sampleMetricsReq : Request :=
  { method := Method.GET, path := "/metrics",
    assetExists := false, raisesError := false }

/-- A request whose handling raises an unhandled failure. -/
def sampleFailingReq : Request :=
  { method := Method.GET, path := "/trigger",
    assetExists := false, raisesError := true }

/-- A sample outbound request through the API client. -/
def sampleOutReq : OutboundRequest :=
  { url := "https://api.themoviedb.org/3/trending/all/week",
    payload := none,
    headers := [("Accept", "application/json"),
                ("Content-Type", "application/json")] }

/-- Each character emitted for a timestamp field position is a decimal
digit. -/
theorem digitChar_isDigit (n : Nat) : (digitChar n).isDigit = true := by
  unfold digitChar
  have h : n % 10 < 10 := Nat.mod_lt _ (by omega)
  generalize hm : n % 10 = m at h ⊢
  interval_cases m <;> decide

/-- `toISOString` always produces a string of the exact ISO-8601 shape. -/
theorem iso8601Shape_isoChars (d : DateTime) :
    iso8601Shape (isoChars d) = true := by
  simp [isoChars, iso8601Shape, digitChar_isDigit]

/-- C1: a GET request whose path is neither `/health` nor `/metrics`,
matching no static asset (and raising no unhandled failure), is answered
with status 200 and the entry document `build/index.html` — never a 404. -/
theorem spa_fallback_get_entry_document (env : Env) (s : ProcessState)
    (req : Request) (hm : req.method = Method.GET)
    (h1 : req.path ≠ "/health") (h2 : req.path ≠ "/metrics")
    (ha : req.assetExists = false) (he : req.raisesError = false) :
    handle env s req =
      { status := 200, body := Body.file entryDocument, csp := helmetCsp } := by
  obtain ⟨m, p, a, r⟩ := req
  simp only at hm h1 h2 ha he
  subst hm ha he
  simp [handle, route, applyHelmet, isGetLike, spaFallbackBare, h1, h2]

/-- C1 witness: the concrete request `GET /this/does/not/exist` with no
asset match receives the entry document with status 200. -/
theorem spa_fallback_get_entry_document_witness :
    handle sampleEnv sampleState sampleSpaReq =
      { status := 200, body := Body.file entryDocument, csp := helmetCsp } :=
  spa_fallback_get_entry_document sampleEnv sampleState sampleSpaReq rfl
    (by decide) (by decide) rfl rfl

/-- C4 counterexample: the claim that script/style/font/image/connect
sources are each restricted to the allow-list (self-origin, the font CDN
hosts, the catalog API origin) fails at the image directive: the bare
`https:` scheme source is configured there, admitting every https origin,
and the inline-styles keyword sits in the style directive. -/
theorem csp_not_restricted_to_allowlist :
    helmetCsp.imgSrc.contains CspSource.schemeHttps = true ∧
    cspAllowList.contains CspSource.schemeHttps = false ∧
    helmetCsp.imgSrc.all (fun x => cspAllowList.contains x) = false ∧
    helmetCsp.styleSrc.all (fun x => cspAllowList.contains x) = false := by
  decide

/-- C4 amended: every response carries the fixed content-security-policy;
its script, font and connect source directives are restricted to the
allow-list (self-origin, font CDN hosts, catalog API origin); the style
directive additionally allows inline styles, and the image directive
additionally allows `data:` URIs and any `https:`/`http:` origin. -/
theorem csp_fixed_on_every_response (env : Env) (s : ProcessState)
    (req : Request) :
    (handle env s req).csp = helmetCsp ∧
    helmetCsp.scriptSrc.all (fun x => cspAllowList.contains x) = true ∧
    helmetCsp.fontSrc.all (fun x => cspAllowList.contains x) = true ∧
    helmetCsp.connectSrc.all (fun x => cspAllowList.contains x) = true ∧
    helmetCsp.styleSrc.all
      (fun x => (cspAllowList ++ [CspSource.keywordInline]).contains x) = true ∧
    helmetCsp.imgSrc.all
      (fun x => (cspAllowList ++ [CspSource.schemeData, CspSource.schemeHttps,
        CspSource.schemeHttp]).contains x) = true := by
  refine ⟨rfl, by decide, by decide, by decide, by decide, by decide⟩

/-- C3: every GET of `/health` (raising no unhandled failure), in every
environment, is answered with status 200 and a freshly computed body whose
`status` field is `healthy`, whose `timestamp` is the current time in
ISO-8601 shape, whose `uptime` is the non-negative process uptime, whose
`environment` field is the configured `NODE_ENV` value — `production` when
that variable is unset — and whose `version` field is the configured
`APP_VERSION` value — `1.0.0` when that variable is unset; the handler
leaves the process state unchanged. -/
theorem health_endpoint_ok (env : Env) (s : ProcessState) (req : Request)
    (hm : req.method = Method.GET) (hp : req.path = "/health")
    (he : req.raisesError = false) :
    (handle env s req).status = 200 ∧
    (handle env s req).body = Body.json (healthJson env s) ∧
    jsonLookup (healthJson env s) "status" = some (Json.str "healthy") ∧
    jsonLookup (healthJson env s) "timestamp" =
      some (Json.str (toISOString s.now)) ∧
    iso8601Shape (toISOString s.now).data = true ∧
    jsonLookup (healthJson env s) "uptime" =
      some (Json.num (s.uptime : Int)) ∧
    0 ≤ (s.uptime : Int) ∧
    jsonLookup (healthJson env s) "environment" =
      some (Json.str (nodeEnvValue env)) ∧
    (env.nodeEnv = none → nodeEnvValue env = "production") ∧
    jsonLookup (healthJson env s) "version" =
      some (Json.str (orDefault env.appVersion "1.0.0")) ∧
    (env.appVersion = none → orDefault env.appVersion "1.0.0" = "1.0.0") ∧
    (serverStep env s req).2 = s := by
  obtain ⟨m, p, a, r⟩ := req
  simp only at hm hp he
  subst hm hp he
  refine ⟨rfl, rfl, rfl, rfl, iso8601Shape_isoChars s.now, rfl, by omega,
    rfl, fun h => ?_, rfl, fun h => ?_, rfl⟩
  · simp [nodeEnvValue, orDefault, h]
  · simp [orDefault, h]

/-- C3 witness: the concrete `GET /health` request in the unconfigured
sample environment, where the defaults apply. -/
theorem health_endpoint_ok_witness :
    (handle sampleEnv sampleState sampleHealthReq).status = 200 ∧
    nodeEnvValue sampleEnv = "production" ∧
    orDefault sampleEnv.appVersion "1.0.0" = "1.0.0" :=
  ⟨(health_endpoint_ok sampleEnv sampleState sampleHealthReq rfl rfl rfl).1,
   (health_endpoint_ok sampleEnv sampleState sampleHealthReq rfl rfl
      rfl).2.2.2.2.2.2.2.2.1 rfl,
   (health_endpoint_ok sampleEnv sampleState sampleHealthReq rfl rfl
      rfl).2.2.2.2.2.2.2.2.2.2.1 rfl⟩

/-- C9: every GET of `/metrics` (raising no unhandled failure) is answered
with status 200 and a body holding the current memory, uptime and CPU
figures, all non-negative; the response depends only on the instantaneous
memory/uptime/CPU readings, so nothing is aggregated or retained across
invocations. -/
theorem metrics_endpoint_ok (env : Env) (s : ProcessState) (req : Request)
    (hm : req.method = Method.GET) (hp : req.path = "/metrics")
    (he : req.raisesError = false) :
    (handle env s req).status = 200 ∧
    (handle env s req).body = Body.json (metricsJson s) ∧
    jsonLookup (metricsJson s) "memory" = some (memoryJson s.memory) ∧
    jsonLookup (metricsJson s) "uptime" = some (Json.num (s.uptime : Int)) ∧
    jsonLookup (metricsJson s) "cpu" = some (cpuJson s.cpu) ∧
    0 ≤ (s.uptime : Int) ∧ 0 ≤ (s.memory.rss : Int) ∧
    0 ≤ (s.memory.heapTotal : Int) ∧ 0 ≤ (s.memory.heapUsed : Int) ∧
    0 ≤ (s.memory.external : Int) ∧ 0 ≤ (s.memory.arrayBuffers : Int) ∧
    0 ≤ (s.cpu.user : Int) ∧ 0 ≤ (s.cpu.system : Int) ∧
    (∀ s' : ProcessState, s'.memory = s.memory → s'.uptime = s.uptime →
      s'.cpu = s.cpu → handle env s' req = handle env s req) := by
  obtain ⟨m, p, a, r⟩ := req
  simp only at hm hp he
  subst hm hp he
  refine ⟨rfl, rfl, rfl, rfl, rfl, by omega, by omega, by omega, by omega,
    by omega, by omega, by omega, by omega, ?_⟩
  intro s' h1 h2 h3
  simp [handle, route, applyHelmet, metricsBare, metricsJson, h1, h2, h3]

/-- C9 witness: the concrete `GET /metrics` request at the sample state. -/
theorem metrics_endpoint_ok_witness :
    (handle sampleEnv sampleState sampleMetricsReq).status = 200 ∧
    jsonLookup (metricsJson sampleState) "uptime" =
      some (Json.num (12345 : Int)) :=
  ⟨(metrics_endpoint_ok sampleEnv sampleState sampleMetricsReq rfl rfl rfl).1,
   (metrics_endpoint_ok sampleEnv sampleState sampleMetricsReq rfl rfl
      rfl).2.2.2.1⟩

/-- C8: a request whose handling raises an unhandled failure is answered
with status 500 and a JSON body whose `error` field is the generic
message, and the server keeps processing the requests that follow it
exactly as it would have without the failure. -/
theorem error_middleware_recovers (env : Env) (s : ProcessState)
    (r1 : Request) (rest : List Request) (h : r1.raisesError = true) :
    (handle env s r1).status = 500 ∧
    (handle env s r1).body = Body.json errorJson ∧
    jsonLookup errorJson "error" = some (Json.str "Internal Server Error") ∧
    serverRun env s (r1 :: rest) =
      handle env s r1 :: rest.map (handle env s) := by
  refine ⟨?_, ?_, rfl, rfl⟩ <;> simp [handle, h, applyHelmet, errorBare]

/-- C8 witness: the concrete failure-raising request followed by a healthy
one; the failing request gets the 500 JSON error and the next request is
answered normally. -/
theorem error_middleware_recovers_witness :
    (handle sampleEnv sampleState sampleFailingReq).status = 500 ∧
    serverRun sampleEnv sampleState [sampleFailingReq, sampleHealthReq] =
      handle sampleEnv sampleState sampleFailingReq ::
        [sampleHealthReq].map (handle sampleEnv sampleState) :=
  ⟨(error_middleware_recovers sampleEnv sampleState sampleFailingReq
      [sampleHealthReq] rfl).1,
   (error_middleware_recovers sampleEnv sampleState sampleFailingReq
      [sampleHealthReq] rfl).2.2.2⟩

/-- C2: every failed outcome through the API Client is re-rejected to the
caller unchanged after logging, and the log entry falls in exactly one of
the three categories; when a response is present, the logged category
preserves that response's exact status code and body. -/
theorem interceptor_classifies_and_repropagates (e : AxiosError) :
    (responseInterceptorRejected e).rejected = e ∧
    ((∃ r, e.response = some r ∧
        (responseInterceptorRejected e).logged =
          FailureCategory.badStatus r.status r.data) ∨
     (e.response = none ∧ ∃ q, e.request = some q ∧
        (responseInterceptorRejected e).logged =
          FailureCategory.noResponse q) ∨
     (e.response = none ∧ e.request = none ∧
        (responseInterceptorRejected e).logged =
          FailureCategory.constructionError e.message)) := by
  obtain ⟨resp, req, msg⟩ := e
  cases resp <;> cases req <;>
    simp [responseInterceptorRejected, classify]

/-- C6: every request issued through the API Client carries the two
default headers, `Accept` and `Content-Type`, both set to the JSON media
type, regardless of the requested path, the payload, or the configured
base URL. -/
theorem default_headers_always_present (b : Option String) (p : String)
    (d : Option Json) :
    List.lookup "Accept" (dispatchRequest (tmdbAxiosInstance b) p d).headers =
      some "application/json" ∧
    List.lookup "Content-Type"
        (dispatchRequest (tmdbAxiosInstance b) p d).headers =
      some "application/json" :=
  ⟨rfl, rfl⟩

/-- C7: the API Client's timeout is fixed at construction to 10 seconds
(10000 ms), and an outbound call on which no response arrived within that
boundary — rejected with the sent request object and no response object —
is classified as the no-response failure, never as a status failure. -/
theorem timeout_is_no_response_failure (b : Option String)
    (q : OutboundRequest) (m : String) :
    (tmdbAxiosInstance b).timeout = 10 * 1000 ∧
    classify (timeoutError q m) = FailureCategory.noResponse q ∧
    ∀ st bd, classify (timeoutError q m) ≠ FailureCategory.badStatus st bd := by
  refine ⟨rfl, rfl, fun st bd hcontra => ?_⟩
  simp [classify, timeoutError] at hcontra

/-- C7 witness: at a concrete request and the axios timeout message, the
timeout is 10000 ms, the rejection is classified as no-response, and it is
not a status failure. -/
theorem timeout_is_no_response_failure_witness :
    (tmdbAxiosInstance none).timeout = 10 * 1000 ∧
    classify (timeoutError sampleOutReq "timeout of 10000ms exceeded") =
      FailureCategory.noResponse sampleOutReq ∧
    classify (timeoutError sampleOutReq "timeout of 10000ms exceeded") ≠
      FailureCategory.badStatus 500 (Json.obj []) :=
  ⟨(timeout_is_no_response_failure none sampleOutReq
      "timeout of 10000ms exceeded").1,
   (timeout_is_no_response_failure none sampleOutReq
      "timeout of 10000ms exceeded").2.1,
   (timeout_is_no_response_failure none sampleOutReq
      "timeout of 10000ms exceeded").2.2 500 (Json.obj [])⟩

/-- C10: the interceptor's three checks run in a fixed priority order and
are mutually exclusive: an error carrying a response is classified as a
status failure even when it also carries a request object; a request
without a response is the no-response failure; only an error with neither
is a construction error. -/
theorem classification_priority_order (e : AxiosError) :
    (∀ r, e.response = some r →
      classify e = FailureCategory.badStatus r.status r.data) ∧
    (∀ q, e.response = none → e.request = some q →
      classify e = FailureCategory.noResponse q) ∧
    (e.response = none → e.request = none →
      classify e = FailureCategory.constructionError e.message) := by
  obtain ⟨resp, req, msg⟩ := e
  refine ⟨fun r hr => ?_, fun q hn hq => ?_, fun hn hq => ?_⟩
  · simp only at hr
    subst hr
    simp [classify]
  · simp only at hn hq
    subst hn
    subst hq
    simp [classify]
  · simp only at hn hq
    subst hn
    subst hq
    simp [classify]

/-- C10 witness: an error carrying both a 404 response and a request
object is classified as the status failure, not the no-response one. -/
theorem classification_priority_order_witness :
    classify { response := some { status := 404, data := Json.obj [] },
               request := some sampleOutReq,
               message := "Request failed with status code 404" } =
      FailureCategory.badStatus 404 (Json.obj []) ∧
    classify { response := none, request := some sampleOutReq,
               message := "Network Error" } =
      FailureCategory.noResponse sampleOutReq ∧
    classify { response := none, request := none, message := "bad config" } =
      FailureCategory.constructionError "bad config" :=
  ⟨(classification_priority_order _).1 _ rfl,
   (classification_priority_order _).2.1 _ rfl rfl,
   (classification_priority_order _).2.2 rfl rfl⟩

end Hotstar
